import Mathlib

/-!
Shallow embedding of the OOGL `Arrays.js` module (the `context.AttributeArray`,
`context.AttributeArrays` and `context.ElementArray` constructors and their
methods).  The graphics context is modelled as a trace of GL calls; JavaScript
arrays that can be mutated in place are modelled by a small heap of integer
lists, so that `indices.slice()` followed by in-place mutation of the copy is
faithfully represented.
-/

/-- WebGL numeric constant `gl.BYTE`. -/
def GL_BYTE : Nat := 0x1400

/-- WebGL numeric constant `gl.UNSIGNED_BYTE`. -/
def GL_UNSIGNED_BYTE : Nat := 0x1401

/-- WebGL numeric constant `gl.SHORT`. -/
def GL_SHORT : Nat := 0x1402

/-- WebGL numeric constant `gl.UNSIGNED_SHORT`. -/
def GL_UNSIGNED_SHORT : Nat := 0x1403

/-- WebGL numeric constant `gl.FLOAT`. -/
def GL_FLOAT : Nat := 0x1406

/-- WebGL numeric constant `gl.TRIANGLES`. -/
def GL_TRIANGLES : Nat := 4

/-- WebGL numeric constant `gl.TRIANGLE_STRIP`. -/
def GL_TRIANGLE_STRIP : Nat := 5

/-- WebGL numeric constant `gl.TRIANGLE_FAN`. -/
def GL_TRIANGLE_FAN : Nat := 6

/-- WebGL numeric constant `gl.ARRAY_BUFFER`. -/
def GL_ARRAY_BUFFER : Nat := 0x8892

/-- WebGL numeric constant `gl.ELEMENT_ARRAY_BUFFER`. -/
def GL_ELEMENT_ARRAY_BUFFER : Nat := 0x8893

/-- One call issued to the underlying graphics context.  The wrapper under
verification is a thin layer over these calls, so a method's behaviour is the
list of `GLCall`s it issues. -/
inductive GLCall where
  | enableVertexAttribArray (i : Nat)
  | disableVertexAttribArray (i : Nat)
  | bindBuffer (target : Nat)
  | vertexAttribPointer (index : Nat) (num : Nat) (glType : Nat) (normalize : Bool)
      (stride : Int) (ptr : Int)
  | drawArrays (mode : Nat) (first : Int) (count : Int)
  | drawElements (mode : Nat) (count : Int) (glType : Nat) (byteOffset : Int)
  | createBuffer
  | bufferData (target : Nat) (data : List Int)
  | subData (pos : Nat) (data : List Int)
deriving DecidableEq, Repr

/-- A value thrown by JavaScript code: either an explicit `throw` of a string
(as the constructors in `Arrays.js` do), or a `TypeError` raised by the engine
(e.g. `new undefined(...)` for an unrecognized `buffer_type`). -/
inductive JSErr where
  | thrown (msg : String)
  | typeError
deriving DecidableEq, Repr

/-- JavaScript `x || d` for an optional numeric argument `x`: an absent
argument (`undefined`) and the number `0` are both falsy and yield `d`. -/
def jsOr (x : Option Int) (d : Int) : Int :=
  match x with
  | none => d
  | some v => if v = 0 then d else v

/-- A heap of JavaScript arrays of numbers; a reference is an index into the
list.  Used to model aliasing and in-place mutation (`slice`, `+=`). -/
abbrev JSHeap : Type := List (List Int)

/-- Read the array an alias refers to (JavaScript dereference). -/
def readRef (h : JSHeap) (r : Nat) : List Int :=
  (h[r]?).getD []

/-- Overwrite the array an alias refers to (in-place mutation). -/
def writeRef (h : JSHeap) (r : Nat) (v : List Int) : JSHeap :=
  List.set h r v

/-- Allocate a fresh array (e.g. the result of `slice()`), returning the new
heap and a reference to the fresh array. -/
def allocRef (h : JSHeap) (v : List Int) : JSHeap × Nat :=
  (h ++ [v], List.length h)

/-- The length of a heap, for stating that a reference is valid. -/
def heapSize (h : JSHeap) : Nat := List.length h

/-- The `types` table of `context.AttributeArray`: maps a type name to the GL
type constant and the byte size of one component. -/
def attrTypes : String → Option (Nat × Int)
  | "byte" => some (GL_BYTE, 1)
  | "ubyte" => some (GL_UNSIGNED_BYTE, 1)
  | "short" => some (GL_SHORT, 2)
  | "ushort" => some (GL_UNSIGNED_SHORT, 2)
  | "float" => some (GL_FLOAT, 4)
  | _ => none

/-- `types[type].glType` of `context.AttributeArray` (defined for the type
names the constructor accepts). -/
def attrGlType (t : String) : Nat := ((attrTypes t).getD (0, 0)).1

/-- `types[type].size` of `context.AttributeArray` (defined for the type
names the constructor accepts). -/
def attrSize (t : String) : Int := ((attrTypes t).getD (0, 0)).2

/-- The keys of the `buffer_types` table of `context.AttributeArray`
(`StaticArrayBuffer`, `StreamArrayBuffer`, `DynamicArrayBuffer`). -/
def bufferTypeNames : List String := ["static", "stream", "dynamic"]

/-- The string thrown by `context.AttributeArray` for an invalid type name. -/
def attrTypeErrMsg : String :=
  "Invalid attribute type, must be one of \"byte\", \"ubyte\", \"short\", \"ushort\" and \"float\"."

/-- The object returned by `context.AttributeArray`: the data it closes over
(`index`, `type`, `num`, `normalize`) determines every method's behaviour. -/
structure AttributeArrayObj where
  index : Nat
  type : String
  num : Nat
  normalize : Bool
deriving DecidableEq, Repr

/-- `context.AttributeArray(index, type, num, buffer_type, data, normalize)`.
Returns the constructed object (or the thrown value) together with the trace
of GL calls the construction issued.  The invalid-type check happens first;
a `buffer_type` outside the `buffer_types` table makes
`new buffer_types[buffer_type]` raise a `TypeError`, still before any GL call.
The calls of a successful construction are modelled from the spec: the buffer
classes (`StaticArrayBuffer` etc., whose source is not part of this module)
wrap `createBuffer`/`bindBuffer`/`bufferData`, and `bindAndData` binds the
buffer to its target and uploads the data. -/
def AttributeArrayNew (index : Nat) (type : String) (num : Nat) (buffer_type : String)
    (data : List Int) (normalize : Bool) :
    Except JSErr AttributeArrayObj × List GLCall :=
  if (attrTypes type).isNone then
    (.error (.thrown attrTypeErrMsg), [])
  else if ¬ bufferTypeNames.contains buffer_type then
    (.error .typeError, [])
  else
    (.ok ⟨index, type, num, normalize⟩,
      [.createBuffer, .bindBuffer GL_ARRAY_BUFFER, .bufferData GL_ARRAY_BUFFER data])

/-- `buffer.enable()`: `gl.enableVertexAttribArray(index)`. -/
def attrEnableCall (a : AttributeArrayObj) : GLCall :=
  .enableVertexAttribArray a.index

/-- `buffer.disable()`: `gl.disableVertexAttribArray(index)`. -/
def attrDisableCall (a : AttributeArrayObj) : GLCall :=
  .disableVertexAttribArray a.index

/-- `buffer.pointer(stride, offset)`: `gl.vertexAttribPointer` with the stride
and offset scaled by `types[type].size`; absent (or zero) arguments fall back
to `0` via `||`. -/
def attrPointerCall (a : AttributeArrayObj) (stride offset : Option Int) : GLCall :=
  .vertexAttribPointer a.index a.num (attrGlType a.type) a.normalize
    (jsOr stride 0 * attrSize a.type) (jsOr offset 0 * attrSize a.type)

/-- Modelled from the spec: the `bind` method inherited from the array-buffer
wrapper classes (whose source is not part of this module) binds the buffer to
the `gl.ARRAY_BUFFER` target. -/
def attrBindCall (_ : AttributeArrayObj) : GLCall :=
  .bindBuffer GL_ARRAY_BUFFER

/-- `buffer.bindAndPointer(stride, offset)`: a `bindBuffer` on
`gl.ARRAY_BUFFER` followed by the inlined `vertexAttribPointer` call. -/
def attrBindAndPointerCalls (a : AttributeArrayObj) (stride offset : Option Int) :
    List GLCall :=
  [.bindBuffer GL_ARRAY_BUFFER,
   .vertexAttribPointer a.index a.num (attrGlType a.type) a.normalize
     (jsOr stride 0 * attrSize a.type) (jsOr offset 0 * attrSize a.type)]

/-- The `types` table of `context.ElementArray`: maps an element type name to
the GL type constant and the byte size of one index. -/
def elemTypes : String → Option (Nat × Int)
  | "ubyte" => some (GL_UNSIGNED_BYTE, 1)
  | "ushort" => some (GL_UNSIGNED_SHORT, 2)
  | _ => none

/-- `types[type].glType` of `context.ElementArray`. -/
def elemGlType (t : String) : Nat := ((elemTypes t).getD (0, 0)).1

/-- `types[type].size` of `context.ElementArray`. -/
def elemSize (t : String) : Int := ((elemTypes t).getD (0, 0)).2

/-- The string thrown by `context.ElementArray` for an invalid type name. -/
def elemTypeErrMsg : String :=
  "Invalid element type, must be either \"ubyte\" or \"ushort\"."

/-- The `if (!type) { type = 'ushort'; }` defaulting at the top of
`context.ElementArray`: an absent argument (`undefined`) and the empty string
are falsy and are replaced by `'ushort'`. -/
def elemDefaultType (t : Option String) : String :=
  match t with
  | none => "ushort"
  | some s => if s = "" then "ushort" else s

/-- The object returned by `context.ElementArray`: it closes over the
(defaulted) `type`, the captured `count = indices.length` and the `indices`
array itself. -/
structure ElementArrayObj where
  type : String
  count : Int
  indices : List Int
deriving DecidableEq, Repr

/-- `context.ElementArray(indices, type)`.  Returns the constructed object (or
the thrown value) together with the trace of GL calls the construction issued.
The invalid-type check happens before any buffer work.  The calls of a
successful construction are modelled from the spec: `StaticElementArrayBuffer`
(whose source is not part of this module) wraps
`createBuffer`/`bindBuffer`/`bufferData` on the `gl.ELEMENT_ARRAY_BUFFER`
target, and `bindAndData` binds the buffer and uploads the data. -/
def ElementArrayNew (indices : List Int) (type : Option String) :
    Except JSErr ElementArrayObj × List GLCall :=
  let t := elemDefaultType type
  if (elemTypes t).isNone then
    (.error (.thrown elemTypeErrMsg), [])
  else
    (.ok ⟨t, (indices.length : Int), indices⟩,
      [.createBuffer, .bindBuffer GL_ELEMENT_ARRAY_BUFFER,
       .bufferData GL_ELEMENT_ARRAY_BUFFER indices])

/-- The shared shape of `buffer.drawTriangles` / `drawTriangleFan` /
`drawTriangleStrip` of `context.ElementArray`: `offset = offset || 0`,
`count = count || all` (so an explicit `0` falls back to the default), then
`gl.drawElements(mode, count, types[type].glType, offset * types[type].size)`. -/
def elemDrawCall (mode : Nat) (ea : ElementArrayObj) (offset count : Option Int) :
    GLCall :=
  .drawElements mode (jsOr count ea.count) (elemGlType ea.type)
    (jsOr offset 0 * elemSize ea.type)

/-- `buffer.drawTrianglesBaseVertex(vertexOffset, offset, count)` of
`context.ElementArray`, run on a heap in which `r` refers to the `indices`
array the closure captured.  `indices.slice()` allocates a fresh copy; the
`for` loop adds `vertexOffset` to every entry of the copy in place; when the
(defaulted) vertex offset is non-zero the shifted copy is uploaded with
`subData(0, ...)`, the draw call is issued, and the original `indices` array
is re-uploaded; when it is zero only the draw call is issued.  Returns the
final heap and the trace of GL calls. -/
def drawTrianglesBaseVertexRun (ty : String) (all : Int) (h : JSHeap) (r : Nat)
    (vertexOffset offset count : Option Int) : JSHeap × List GLCall :=
  let indicesVal := readRef h r
  let alloc := allocRef h indicesVal
  let h1 := alloc.1
  let sref := alloc.2
  let off := jsOr offset 0
  let cnt := jsOr count all
  let vo := jsOr vertexOffset 0
  if vo ≠ 0 then
    let h2 := writeRef h1 sref (List.map (fun x => x + vo) (readRef h1 sref))
    (h2,
      [.subData 0 (readRef h2 sref),
       .drawElements GL_TRIANGLES cnt (elemGlType ty) (off * elemSize ty),
       .subData 0 (readRef h2 r)])
  else
    (h1, [.drawElements GL_TRIANGLES cnt (elemGlType ty) (off * elemSize ty)])

/-- Modelled from the spec: `subData(pos, data)` of the element-buffer wrapper
(whose source is not part of this module) is a sub-range update of the
buffer's existing storage, overwriting the elements starting at position
`pos` with `data` and leaving the rest unchanged. -/
def applySubData (buf : List Int) (pos : Nat) (data : List Int) : List Int :=
  buf.take pos ++ data ++ buf.drop (pos + data.length)

/-- The effect of one GL call on the contents of the currently considered
buffer: `subData` updates a sub-range, every other call leaves it unchanged. -/
def applyCall (buf : List Int) : GLCall → List Int
  | .subData pos data => applySubData buf pos data
  | _ => buf

/-- The effect of a trace of GL calls on the buffer's contents. -/
def applyCalls (buf : List Int) (calls : List GLCall) : List Int :=
  calls.foldl applyCall buf

/-- One invocation of an `add*` method of `context.AttributeArrays`, with its
arguments.  The typed variants fix the type string and the component count;
the generic `add1`..`add4` take the type as an argument. -/
inductive AddOp where
  | add1 (t : String) (d : List Int) (n : Bool)
  | add1b (d : List Int) (n : Bool)
  | add1ub (d : List Int) (n : Bool)
  | add1s (d : List Int) (n : Bool)
  | add1us (d : List Int) (n : Bool)
  | add1f (d : List Int) (n : Bool)
  | add2 (t : String) (d : List Int) (n : Bool)
  | add2b (d : List Int) (n : Bool)
  | add2ub (d : List Int) (n : Bool)
  | add2s (d : List Int) (n : Bool)
  | add2us (d : List Int) (n : Bool)
  | add2f (d : List Int) (n : Bool)
  | add3 (t : String) (d : List Int) (n : Bool)
  | add3b (d : List Int) (n : Bool)
  | add3ub (d : List Int) (n : Bool)
  | add3s (d : List Int) (n : Bool)
  | add3us (d : List Int) (n : Bool)
  | add3f (d : List Int) (n : Bool)
  | add4 (t : String) (d : List Int) (n : Bool)
  | add4b (d : List Int) (n : Bool)
  | add4ub (d : List Int) (n : Bool)
  | add4s (d : List Int) (n : Bool)
  | add4us (d : List Int) (n : Bool)
  | add4f (d : List Int) (n : Bool)
deriving DecidableEq, Repr

/-- `arrays.push(new context.AttributeArrayN(arrays.length, t, d, n))`, where
`context.AttributeArrayN(index, t, d, n)` is
`context.AttributeArray(index, t, N, 'static', d, n)`: the new array is
constructed with the current length of the internal list as its attribute
index.  If the constructor throws, the exception propagates and nothing is
pushed. -/
def pushNew (s : List AttributeArrayObj) (t : String) (num : Nat)
    (d : List Int) (n : Bool) : Except JSErr (List AttributeArrayObj) :=
  match (AttributeArrayNew s.length t num "static" d n).1 with
  | .ok a => .ok (s ++ [a])
  | .error e => .error e

/-- Dispatch of the 24 `add*` methods of `context.AttributeArrays` onto the
internal `arrays` list. -/
def applyAdd (s : List AttributeArrayObj) : AddOp → Except JSErr (List AttributeArrayObj)
  | .add1 t d n => pushNew s t 1 d n
  | .add1b d n => pushNew s "byte" 1 d n
  | .add1ub d n => pushNew s "ubyte" 1 d n
  | .add1s d n => pushNew s "short" 1 d n
  | .add1us d n => pushNew s "ushort" 1 d n
  | .add1f d n => pushNew s "float" 1 d n
  | .add2 t d n => pushNew s t 2 d n
  | .add2b d n => pushNew s "byte" 2 d n
  | .add2ub d n => pushNew s "ubyte" 2 d n
  | .add2s d n => pushNew s "short" 2 d n
  | .add2us d n => pushNew s "ushort" 2 d n
  | .add2f d n => pushNew s "float" 2 d n
  | .add3 t d n => pushNew s t 3 d n
  | .add3b d n => pushNew s "byte" 3 d n
  | .add3ub d n => pushNew s "ubyte" 3 d n
  | .add3s d n => pushNew s "short" 3 d n
  | .add3us d n => pushNew s "ushort" 3 d n
  | .add3f d n => pushNew s "float" 3 d n
  | .add4 t d n => pushNew s t 4 d n
  | .add4b d n => pushNew s "byte" 4 d n
  | .add4ub d n => pushNew s "ubyte" 4 d n
  | .add4s d n => pushNew s "short" 4 d n
  | .add4us d n => pushNew s "ushort" 4 d n
  | .add4f d n => pushNew s "float" 4 d n

/-- A sequence of `add*` calls on an `AttributeArrays` set, starting from the
given internal list; an exception aborts the sequence. -/
def runAdds : List AddOp → List AttributeArrayObj → Except JSErr (List AttributeArrayObj)
  | [], s => .ok s
  | op :: ops, s =>
    match applyAdd s op with
    | .ok s1 => runAdds ops s1
    | .error e => .error e

/-- `arrays.enable()` of `context.AttributeArrays`: the `for` loop calls
`gl.enableVertexAttribArray(i)` for `i = 0 .. arrays.length - 1`. -/
def arraysEnableCalls (s : List AttributeArrayObj) : List GLCall :=
  (List.range s.length).map GLCall.enableVertexAttribArray

/-- `arrays.disable()` of `context.AttributeArrays`: the `for` loop calls
`gl.disableVertexAttribArray(i)` for `i = 0 .. arrays.length - 1`. -/
def arraysDisableCalls (s : List AttributeArrayObj) : List GLCall :=
  (List.range s.length).map GLCall.disableVertexAttribArray

/-- The shared shape of `drawTriangles` / `drawTriangleFan` /
`drawTriangleStrip` of `context.AttributeArrays`: the defaults are driven by
`arguments.length`, so an explicitly passed `0` is kept; a missing `count`
falls back to the constructor's `count` argument (`all`) and a missing
`offset` to `0`; then `gl.drawArrays(mode, offset, count)`. -/
def arraysDrawCall (mode : Nat) (all : Int) (offset count : Option Int) : GLCall :=
  let c := match count with | none => all | some c => c
  let o := match offset with | none => 0 | some o => o
  .drawArrays mode o c

/-!  Helper lemmas about the JavaScript heap model. -/

theorem readRef_allocRef_self (h : JSHeap) (v : List Int) :
    readRef (allocRef h v).1 (allocRef h v).2 = v := by
  simp [readRef, allocRef, List.getElem?_concat_length]

theorem readRef_allocRef_lt (h : JSHeap) (v : List Int) (r : Nat)
    (hr : r < heapSize h) : readRef (allocRef h v).1 r = readRef h r := by
  simp [readRef, allocRef, List.getElem?_append_left hr]

theorem readRef_writeRef_self (h : JSHeap) (r : Nat) (v : List Int)
    (hr : r < heapSize h) : readRef (writeRef h r v) r = v := by
  simp [readRef, writeRef, List.getElem?_set_eq_of_lt v hr]

theorem readRef_writeRef_ne (h : JSHeap) (s r : Nat) (v : List Int)
    (hne : s ≠ r) : readRef (writeRef h s v) r = readRef h r := by
  simp [readRef, writeRef, List.getElem?_set_ne hne]

theorem heapSize_allocRef (h : JSHeap) (v : List Int) :
    heapSize (allocRef h v).1 = heapSize h + 1 := by
  simp [heapSize, allocRef]

theorem jsOr_some_of_ne (v d : Int) (hv : v ≠ 0) : jsOr (some v) d = v := by
  simp [jsOr, hv]

/-- Claim C1: for every index list and every non-zero `vertexOffset`,
`drawTrianglesBaseVertex(vertexOffset, offset, count)` first uploads, via
`subData` at position 0, a copy of the index list in which every entry has
been increased by exactly `vertexOffset`, then issues the `drawElements`
call, and then re-uploads the original index list. -/
theorem C1_drawTrianglesBaseVertex_shifts_draws_restores
    (ty : String) (all : Int) (h : JSHeap) (r : Nat) (vo : Int)
    (offset count : Option Int) (hr : r < heapSize h) (hvo : vo ≠ 0) :
    (drawTrianglesBaseVertexRun ty all h r (some vo) offset count).2 =
      [GLCall.subData 0 (List.map (fun x => x + vo) (readRef h r)),
       GLCall.drawElements GL_TRIANGLES (jsOr count all) (elemGlType ty)
         (jsOr offset 0 * elemSize ty),
       GLCall.subData 0 (readRef h r)] := by
  have hjs : jsOr (some vo) 0 = vo := jsOr_some_of_ne vo 0 hvo
  have hself : readRef (allocRef h (readRef h r)).1 (allocRef h (readRef h r)).2
      = readRef h r := readRef_allocRef_self h (readRef h r)
  have hlt : (allocRef h (readRef h r)).2 < heapSize (allocRef h (readRef h r)).1 := by
    rw [heapSize_allocRef]; exact Nat.lt_succ_of_le (Nat.le_of_eq rfl)
  have hne : (allocRef h (readRef h r)).2 ≠ r := by
    intro hEq
    exact absurd (hEq ▸ hr) (Nat.lt_irrefl _)
  simp only [drawTrianglesBaseVertexRun, hjs, if_pos hvo, ne_eq]
  rw [hself]
  rw [readRef_writeRef_self _ _ _ hlt]
  rw [readRef_writeRef_ne _ _ _ _ hne]
  rw [readRef_allocRef_lt h (readRef h r) r hr]

/-- Witness for C1 at a concrete input. -/
theorem C1_drawTrianglesBaseVertex_shifts_draws_restores_witness :
    0 < heapSize [[1, 2, 3]] ∧ (5 : Int) ≠ 0 ∧
    (drawTrianglesBaseVertexRun "ushort" 3 [[1, 2, 3]] 0 (some 5) none none).2 =
      [GLCall.subData 0 (List.map (fun x => x + 5) (readRef [[1, 2, 3]] 0)),
       GLCall.drawElements GL_TRIANGLES (jsOr none 3) (elemGlType "ushort")
         (jsOr none 0 * elemSize "ushort"),
       GLCall.subData 0 (readRef [[1, 2, 3]] 0)] :=
  ⟨by decide, by decide,
    C1_drawTrianglesBaseVertex_shifts_draws_restores "ushort" 3 [[1, 2, 3]] 0 5
      none none (by decide) (by decide)⟩

/-- Claim C2: for every `vertexOffset` (zero or non-zero), after
`drawTrianglesBaseVertex` returns, the index buffer's contents (starting from
the original index list the constructor uploaded) again equal the original
index list, and the original JavaScript `indices` array itself is never
mutated by the call: the shift is applied only to a `slice` copy. -/
theorem C2_drawTrianglesBaseVertex_restores_buffer_and_indices
    (ty : String) (all : Int) (h : JSHeap) (r : Nat)
    (vertexOffset offset count : Option Int) (buf : List Int)
    (hr : r < heapSize h) (hbuf : buf = readRef h r) :
    readRef (drawTrianglesBaseVertexRun ty all h r vertexOffset offset count).1 r
      = readRef h r ∧
    applyCalls buf (drawTrianglesBaseVertexRun ty all h r vertexOffset offset count).2
      = buf := by
  have hself := readRef_allocRef_self h (readRef h r)
  have hlt : (allocRef h (readRef h r)).2 < heapSize (allocRef h (readRef h r)).1 := by
    rw [heapSize_allocRef]; exact Nat.lt_succ_of_le (Nat.le_of_eq rfl)
  have hne : (allocRef h (readRef h r)).2 ≠ r := by
    intro hEq
    exact absurd (hEq ▸ hr) (Nat.lt_irrefl _)
  subst hbuf
  by_cases hvo : jsOr vertexOffset 0 = 0
  · simp only [drawTrianglesBaseVertexRun, hvo, ne_eq, not_true_eq_false, if_false]
    exact ⟨readRef_allocRef_lt h _ r hr, by simp [applyCalls, applyCall]⟩
  · simp only [drawTrianglesBaseVertexRun, ne_eq, hvo, not_false_eq_true, if_true]
    rw [hself, readRef_writeRef_self _ _ _ hlt, readRef_writeRef_ne _ _ _ _ hne,
      readRef_allocRef_lt h _ r hr]
    refine ⟨rfl, ?_⟩
    simp [applyCalls, applyCall, applySubData, List.drop_length]

/-- Witness for C2 at a concrete input. -/
theorem C2_drawTrianglesBaseVertex_restores_buffer_and_indices_witness :
    0 < heapSize [[7, 8]] ∧ readRef [[7, 8]] 0 = readRef [[7, 8]] 0 ∧
    (readRef (drawTrianglesBaseVertexRun "ubyte" 2 [[7, 8]] 0 (some 3) none none).1 0
        = readRef [[7, 8]] 0 ∧
      applyCalls (readRef [[7, 8]] 0)
          (drawTrianglesBaseVertexRun "ubyte" 2 [[7, 8]] 0 (some 3) none none).2
        = readRef [[7, 8]] 0) :=
  ⟨by decide, rfl,
    C2_drawTrianglesBaseVertex_restores_buffer_and_indices "ubyte" 2 [[7, 8]] 0
      (some 3) none none (readRef [[7, 8]] 0) (by decide) rfl⟩

/-- Claim C3: when `drawTrianglesBaseVertex` is invoked with `vertexOffset`
equal to `0` or omitted, no `subData` upload is issued at all — the trace is
exactly the single `drawElements` call. -/
theorem C3_drawTrianglesBaseVertex_zero_offset_only_draws
    (ty : String) (all : Int) (h : JSHeap) (r : Nat)
    (vertexOffset offset count : Option Int)
    (hvo : vertexOffset = none ∨ vertexOffset = some 0) :
    (drawTrianglesBaseVertexRun ty all h r vertexOffset offset count).2 =
      [GLCall.drawElements GL_TRIANGLES (jsOr count all) (elemGlType ty)
        (jsOr offset 0 * elemSize ty)] := by
  have hz : jsOr vertexOffset 0 = 0 := by
    rcases hvo with hvo | hvo <;> subst hvo <;> simp [jsOr]
  simp only [drawTrianglesBaseVertexRun, hz, ne_eq, not_true_eq_false, if_false]

/-- Witness for C3 at a concrete input. -/
theorem C3_drawTrianglesBaseVertex_zero_offset_only_draws_witness :
    ((some 0 : Option Int) = none ∨ (some 0 : Option Int) = some 0) ∧
    (drawTrianglesBaseVertexRun "ushort" 3 [[1, 2, 3]] 0 (some 0) (some 1) (some 2)).2 =
      [GLCall.drawElements GL_TRIANGLES (jsOr (some 2) 3) (elemGlType "ushort")
        (jsOr (some 1) 0 * elemSize "ushort")] :=
  ⟨Or.inr rfl,
    C3_drawTrianglesBaseVertex_zero_offset_only_draws "ushort" 3 [[1, 2, 3]] 0
      (some 0) (some 1) (some 2) (Or.inr rfl)⟩

theorem attrTypes_eq_none_iff (t : String) :
    attrTypes t = none ↔ t ∉ ["byte", "ubyte", "short", "ushort", "float"] := by
  unfold attrTypes
  split <;> simp_all

theorem elemTypes_eq_none_iff (t : String) :
    elemTypes t = none ↔ t ∉ ["ubyte", "ushort"] := by
  unfold elemTypes
  split <;> simp_all

theorem AttributeArrayNew_throws_iff (index : Nat) (type : String) (num : Nat)
    (buffer_type : String) (data : List Int) (normalize : Bool) :
    (AttributeArrayNew index type num buffer_type data normalize).1
        = .error (.thrown attrTypeErrMsg)
      ↔ attrTypes type = none := by
  unfold AttributeArrayNew
  split
  · simp_all
  · split <;> simp_all

theorem ElementArrayNew_throws_iff (indices : List Int) (type : Option String) :
    (ElementArrayNew indices type).1 = .error (.thrown elemTypeErrMsg)
      ↔ elemTypes (elemDefaultType type) = none := by
  unfold ElementArrayNew
  simp only []
  split <;> simp_all

/-- Counterexample to claim C4 as stated: the empty string is neither
`'ubyte'` nor `'ushort'`, yet `context.ElementArray(indices, '')` does not
throw — `''` is falsy in JavaScript, so `if (!type)` replaces it by
`'ushort'` and the construction succeeds. -/
theorem C4_elementArray_empty_type_counterexample :
    ¬ (((ElementArrayNew ([] : List Int) (some "")).1
          = .error (.thrown elemTypeErrMsg))
        ↔ (("" : String) ≠ "ubyte" ∧ ("" : String) ≠ "ushort")) := by
  intro hIff
  have h2 := hIff.mpr (by decide)
  rw [ElementArrayNew_throws_iff] at h2
  simp [elemDefaultType, elemTypes] at h2

/-- Claim C4 (amended): `context.AttributeArray` throws its error string if
and only if the `type` argument is not one of `'byte'`, `'ubyte'`,
`'short'`, `'ushort'`, `'float'` — regardless of the other arguments,
including `buffer_type` — and `context.ElementArray` throws its error string
if and only if the supplied `type` is truthy (present and non-empty) and
neither `'ubyte'` nor `'ushort'`; a falsy `type` (absent or the empty
string) defaults to `'ushort'` and therefore does not throw. -/
theorem C4_constructor_throw_conditions :
    (∀ (index : Nat) (type : String) (num : Nat) (buffer_type : String)
        (data : List Int) (normalize : Bool),
      (AttributeArrayNew index type num buffer_type data normalize).1
          = .error (.thrown attrTypeErrMsg)
        ↔ type ∉ ["byte", "ubyte", "short", "ushort", "float"]) ∧
    (∀ (indices : List Int) (type : Option String),
      (ElementArrayNew indices type).1 = .error (.thrown elemTypeErrMsg)
        ↔ ∃ s, type = some s ∧ s ≠ "" ∧ s ∉ ["ubyte", "ushort"]) := by
  constructor
  · intro index type num buffer_type data norm
    rw [AttributeArrayNew_throws_iff, attrTypes_eq_none_iff]
  · intro indices type
    rw [ElementArrayNew_throws_iff]
    cases type with
    | none => simp [elemDefaultType, elemTypes]
    | some s =>
      by_cases hs : s = ""
      · subst hs
        simp [elemDefaultType, elemTypes]
      · simp only [elemDefaultType, if_neg hs]
        rw [elemTypes_eq_none_iff]
        constructor
        · intro hmem
          exact ⟨s, rfl, hs, hmem⟩
        · rintro ⟨s', hEq, _, hmem⟩
          cases Option.some.inj hEq
          exact hmem

theorem AttributeArrayNew_ok_fields (index : Nat) (t : String) (num : Nat)
    (bt : String) (d : List Int) (n : Bool) (arr : AttributeArrayObj)
    (h : (AttributeArrayNew index t num bt d n).1 = Except.ok arr) :
    arr = ⟨index, t, num, n⟩ := by
  unfold AttributeArrayNew at h
  split at h
  · simp at h
  · split at h
    · simp at h
    · exact (Except.ok.inj h).symm

/-- Claim C5: for every `AttributeArray` constructed with type `X`,
`pointer(stride, offset)` invokes `vertexAttribPointer` with the stride and
offset arguments multiplied by `X`'s byte size — `1` for `'byte'` and
`'ubyte'`, `2` for `'short'` and `'ushort'`, `4` for `'float'` — and omitted
stride and offset are treated as `0`. -/
theorem C5_pointer_scales_stride_offset_by_type_size
    (index : Nat) (t : String) (num : Nat) (bt : String) (d : List Int)
    (n : Bool) (arr : AttributeArrayObj)
    (h : (AttributeArrayNew index t num bt d n).1 = Except.ok arr)
    (stride offset : Option Int) :
    attrPointerCall arr stride offset
        = GLCall.vertexAttribPointer index num (attrGlType t) n
            (jsOr stride 0 * attrSize t) (jsOr offset 0 * attrSize t) ∧
    attrPointerCall arr none none
        = GLCall.vertexAttribPointer index num (attrGlType t) n 0 0 ∧
    attrSize "byte" = 1 ∧ attrSize "ubyte" = 1 ∧ attrSize "short" = 2 ∧
    attrSize "ushort" = 2 ∧ attrSize "float" = 4 := by
  have harr := AttributeArrayNew_ok_fields _ _ _ _ _ _ _ h
  subst harr
  refine ⟨rfl, ?_, rfl, rfl, rfl, rfl, rfl⟩
  simp [attrPointerCall, jsOr]

/-- Witness for C5 at a concrete input. -/
theorem C5_pointer_scales_stride_offset_by_type_size_witness :
    (AttributeArrayNew 0 "float" 1 "static" [1] false).1
        = Except.ok ⟨0, "float", 1, false⟩ ∧
    (attrPointerCall ⟨0, "float", 1, false⟩ (some 2) (some 3)
        = GLCall.vertexAttribPointer 0 1 (attrGlType "float") false
            (jsOr (some 2) 0 * attrSize "float") (jsOr (some 3) 0 * attrSize "float") ∧
      attrPointerCall ⟨0, "float", 1, false⟩ none none
        = GLCall.vertexAttribPointer 0 1 (attrGlType "float") false 0 0 ∧
      attrSize "byte" = 1 ∧ attrSize "ubyte" = 1 ∧ attrSize "short" = 2 ∧
      attrSize "ushort" = 2 ∧ attrSize "float" = 4) :=
  ⟨rfl,
    C5_pointer_scales_stride_offset_by_type_size 0 "float" 1 "static" [1] false
      ⟨0, "float", 1, false⟩ rfl (some 2) (some 3)⟩

/-- Claim C6: `bindAndPointer(stride, offset)` issues exactly the same two
graphics-context calls, with the same arguments (including the byte-size
scaling of stride and offset), as calling `bind` and then
`pointer(stride, offset)`. -/
theorem C6_bindAndPointer_equals_bind_then_pointer (a : AttributeArrayObj)
    (stride offset : Option Int) :
    attrBindAndPointerCalls a stride offset
      = [attrBindCall a, attrPointerCall a stride offset] := rfl

/-- The bookkeeping invariant of `context.AttributeArrays`: the `k`-th array
of the internal list is associated with vertex attribute slot `k`. -/
def ArraysInv (s : List AttributeArrayObj) : Prop :=
  ∀ (k : Nat) (hk : k < s.length), s[k].index = k

theorem pushNew_ok (s : List AttributeArrayObj) (t : String) (num : Nat)
    (d : List Int) (n : Bool) (s' : List AttributeArrayObj)
    (h : pushNew s t num d n = .ok s') :
    ∃ a, s' = s ++ [a] ∧ a.index = s.length := by
  unfold pushNew at h
  cases hc : (AttributeArrayNew s.length t num "static" d n).1 with
  | error e => rw [hc] at h; simp at h
  | ok a =>
    rw [hc] at h
    have hfields := AttributeArrayNew_ok_fields _ _ _ _ _ _ _ hc
    refine ⟨a, (Except.ok.inj h).symm, ?_⟩
    rw [hfields]

theorem applyAdd_ok (s : List AttributeArrayObj) (op : AddOp)
    (s' : List AttributeArrayObj) (h : applyAdd s op = .ok s') :
    ∃ a, s' = s ++ [a] ∧ a.index = s.length := by
  cases op <;> (unfold applyAdd at h; exact pushNew_ok _ _ _ _ _ _ h)

theorem ArraysInv_append (s : List AttributeArrayObj) (a : AttributeArrayObj)
    (hInv : ArraysInv s) (ha : a.index = s.length) : ArraysInv (s ++ [a]) := by
  intro k hk
  have hk1 : k < s.length + 1 := by simpa using hk
  by_cases hks : k < s.length
  · rw [List.getElem_append_left hks]
    exact hInv k hks
  · have hkEq : k = s.length := by omega
    subst hkEq
    rw [List.getElem_concat_length]
    · exact ha
    · rfl

theorem runAdds_inv (ops : List AddOp) :
    ∀ s s', runAdds ops s = .ok s' → ArraysInv s → ArraysInv s' := by
  induction ops with
  | nil =>
    intro s s' h hs
    cases Except.ok.inj h
    exact hs
  | cons op ops ih =>
    intro s s' h hs
    unfold runAdds at h
    cases hc : applyAdd s op with
    | error e => rw [hc] at h; simp at h
    | ok s1 =>
      rw [hc] at h
      obtain ⟨a, hEq, hIdx⟩ := applyAdd_ok s op s1 hc
      subst hEq
      exact ih _ s' h (ArraysInv_append s a hs hIdx)

theorem map_range_of_inv (s : List AttributeArrayObj) (hInv : ArraysInv s)
    (f : Nat → GLCall) :
    (List.range s.length).map f = s.map (fun a => f a.index) := by
  apply List.ext_getElem
  · simp
  · intro i h1 h2
    have hi : i < s.length := by simpa using h2
    simp only [List.getElem_map, List.getElem_range]
    exact (congrArg f (hInv i hi)).symm

/-- Claim C7: in an `AttributeArrays` set built by any sequence of
`add1`/`add1b`/…/`add4f` calls, the `k`-th array added is associated with
vertex attribute slot `k` (every add uses the current length of the internal
list as the index), so `enable()` enables exactly the attribute indices of
the added arrays — the slots `0 .. n-1` — and `disable()` disables exactly
those same indices. -/
theorem C7_arrays_kth_added_gets_slot_k (ops : List AddOp)
    (s : List AttributeArrayObj) (h : runAdds ops [] = .ok s) :
    (∀ (k : Nat) (hk : k < s.length), s[k].index = k) ∧
    arraysEnableCalls s = s.map (fun a => GLCall.enableVertexAttribArray a.index) ∧
    arraysDisableCalls s = s.map (fun a => GLCall.disableVertexAttribArray a.index) := by
  have hInv : ArraysInv s := by
    refine runAdds_inv ops [] s h ?_
    intro k hk
    simp at hk
  exact ⟨hInv, map_range_of_inv s hInv _, map_range_of_inv s hInv _⟩

/-- Witness for C7 at a concrete input: two arrays added, slots 0 and 1. -/
theorem C7_arrays_kth_added_gets_slot_k_witness :
    runAdds [AddOp.add1f [1] false, AddOp.add2 "float" [1, 2] false] []
        = .ok [⟨0, "float", 1, false⟩, ⟨1, "float", 2, false⟩] ∧
    ((∀ (k : Nat)
        (hk : k < ([⟨0, "float", 1, false⟩, ⟨1, "float", 2, false⟩] :
          List AttributeArrayObj).length),
        ([⟨0, "float", 1, false⟩, ⟨1, "float", 2, false⟩] :
          List AttributeArrayObj)[k].index = k) ∧
      arraysEnableCalls [⟨0, "float", 1, false⟩, ⟨1, "float", 2, false⟩]
        = ([⟨0, "float", 1, false⟩, ⟨1, "float", 2, false⟩] :
            List AttributeArrayObj).map
            (fun a => GLCall.enableVertexAttribArray a.index) ∧
      arraysDisableCalls [⟨0, "float", 1, false⟩, ⟨1, "float", 2, false⟩]
        = ([⟨0, "float", 1, false⟩, ⟨1, "float", 2, false⟩] :
            List AttributeArrayObj).map
            (fun a => GLCall.disableVertexAttribArray a.index)) :=
  ⟨rfl,
    C7_arrays_kth_added_gets_slot_k
      [AddOp.add1f [1] false, AddOp.add2 "float" [1, 2] false]
      [⟨0, "float", 1, false⟩, ⟨1, "float", 2, false⟩] rfl⟩

theorem ElementArrayNew_ok_fields (indices : List Int) (t : Option String)
    (ea : ElementArrayObj) (h : (ElementArrayNew indices t).1 = Except.ok ea) :
    ea = ⟨elemDefaultType t, (indices.length : Int), indices⟩ := by
  unfold ElementArrayNew at h
  simp only [] at h
  split at h
  · simp at h
  · exact (Except.ok.inj h).symm

/-- Claim C8: when the `type` argument of `context.ElementArray` is omitted
or falsy, it defaults to `'ushort'`: the object's element type is
`'ushort'`, and every draw helper — `drawTriangles`, `drawTriangleFan`,
`drawTriangleStrip` and `drawTrianglesBaseVertex` — passes
`gl.UNSIGNED_SHORT` to `drawElements` and scales the element offset by 2
bytes. -/
theorem C8_element_type_defaults_to_ushort
    (indices : List Int) (t : Option String) (ea : ElementArrayObj)
    (ht : t = none ∨ t = some "")
    (h : (ElementArrayNew indices t).1 = Except.ok ea) :
    ea.type = "ushort" ∧
    elemGlType ea.type = GL_UNSIGNED_SHORT ∧ elemSize ea.type = 2 ∧
    (∀ (mode : Nat) (offset count : Option Int),
      elemDrawCall mode ea offset count
        = GLCall.drawElements mode (jsOr count ea.count) GL_UNSIGNED_SHORT
            (jsOr offset 0 * 2)) ∧
    (∀ (all : Int) (hp : JSHeap) (r : Nat) (vo offset count : Option Int),
      GLCall.drawElements GL_TRIANGLES (jsOr count all) GL_UNSIGNED_SHORT
          (jsOr offset 0 * 2)
        ∈ (drawTrianglesBaseVertexRun ea.type all hp r vo offset count).2) := by
  have hdef : elemDefaultType t = "ushort" := by
    rcases ht with ht | ht <;> subst ht <;> rfl
  have hea := ElementArrayNew_ok_fields indices t ea h
  rw [hdef] at hea
  subst hea
  refine ⟨rfl, rfl, rfl, fun mode offset count => rfl, ?_⟩
  intro all hp r vo offset count
  by_cases hvo : jsOr vo 0 = 0
  · simp [drawTrianglesBaseVertexRun, hvo, elemGlType, elemTypes, elemSize]
  · simp [drawTrianglesBaseVertexRun, hvo, elemGlType, elemTypes, elemSize]

/-- Witness for C8 at a concrete input. -/
theorem C8_element_type_defaults_to_ushort_witness :
    ((none : Option String) = none ∨ (none : Option String) = some "") ∧
    (ElementArrayNew [1, 2] none).1 = Except.ok ⟨"ushort", 2, [1, 2]⟩ ∧
    (ElementArrayObj.type ⟨"ushort", 2, [1, 2]⟩ = "ushort" ∧
      elemGlType (ElementArrayObj.type ⟨"ushort", 2, [1, 2]⟩) = GL_UNSIGNED_SHORT ∧
      elemSize (ElementArrayObj.type ⟨"ushort", 2, [1, 2]⟩) = 2 ∧
      (∀ (mode : Nat) (offset count : Option Int),
        elemDrawCall mode ⟨"ushort", 2, [1, 2]⟩ offset count
          = GLCall.drawElements mode
              (jsOr count (ElementArrayObj.count ⟨"ushort", 2, [1, 2]⟩))
              GL_UNSIGNED_SHORT (jsOr offset 0 * 2)) ∧
      (∀ (all : Int) (hp : JSHeap) (r : Nat) (vo offset count : Option Int),
        GLCall.drawElements GL_TRIANGLES (jsOr count all) GL_UNSIGNED_SHORT
            (jsOr offset 0 * 2)
          ∈ (drawTrianglesBaseVertexRun (ElementArrayObj.type ⟨"ushort", 2, [1, 2]⟩)
              all hp r vo offset count).2)) :=
  ⟨Or.inl rfl, rfl,
    C8_element_type_defaults_to_ushort [1, 2] none ⟨"ushort", 2, [1, 2]⟩
      (Or.inl rfl) rfl⟩

/-- Claim C9: the two families of draw helpers disagree on an explicit `0`
count argument: `ElementArray`'s `drawTriangles`/`drawTriangleFan`/
`drawTriangleStrip` use truthiness defaults (`count || all`), so an
explicitly passed `0` draws all indices, whereas `AttributeArrays`'
`drawTriangles`/`drawTriangleFan`/`drawTriangleStrip` test
`arguments.length`, so an explicitly passed `0` draws zero vertices. -/
theorem C9_explicit_zero_count_disagreement (ea : ElementArrayObj)
    (all offset : Int) :
    (elemDrawCall GL_TRIANGLES ea (some offset) (some 0)
        = GLCall.drawElements GL_TRIANGLES ea.count (elemGlType ea.type)
            (jsOr (some offset) 0 * elemSize ea.type) ∧
      elemDrawCall GL_TRIANGLE_FAN ea (some offset) (some 0)
        = GLCall.drawElements GL_TRIANGLE_FAN ea.count (elemGlType ea.type)
            (jsOr (some offset) 0 * elemSize ea.type) ∧
      elemDrawCall GL_TRIANGLE_STRIP ea (some offset) (some 0)
        = GLCall.drawElements GL_TRIANGLE_STRIP ea.count (elemGlType ea.type)
            (jsOr (some offset) 0 * elemSize ea.type)) ∧
    (arraysDrawCall GL_TRIANGLES all (some offset) (some 0)
        = GLCall.drawArrays GL_TRIANGLES offset 0 ∧
      arraysDrawCall GL_TRIANGLE_FAN all (some offset) (some 0)
        = GLCall.drawArrays GL_TRIANGLE_FAN offset 0 ∧
      arraysDrawCall GL_TRIANGLE_STRIP all (some offset) (some 0)
        = GLCall.drawArrays GL_TRIANGLE_STRIP offset 0) :=
  ⟨⟨rfl, rfl, rfl⟩, rfl, rfl, rfl⟩

/-- Claim C10: when `context.AttributeArray` or `context.ElementArray`
throws for an invalid type name, the throw happens before any buffer is
created or any graphics-context call is issued: the call trace of the failed
construction is empty, so the graphics-context state is unchanged. -/
theorem C10_constructor_failure_is_atomic :
    (∀ (index : Nat) (type : String) (num : Nat) (buffer_type : String)
        (data : List Int) (normalize : Bool),
      attrTypes type = none →
      AttributeArrayNew index type num buffer_type data normalize
        = (.error (.thrown attrTypeErrMsg), [])) ∧
    (∀ (indices : List Int) (type : Option String),
      elemTypes (elemDefaultType type) = none →
      ElementArrayNew indices type = (.error (.thrown elemTypeErrMsg), [])) := by
  constructor
  · intro index type num bt d n hT
    simp [AttributeArrayNew, hT]
  · intro indices t hT
    simp [ElementArrayNew, hT]

/-- Witness for C10 at concrete invalid type names. -/
theorem C10_constructor_failure_is_atomic_witness :
    attrTypes "vec3" = none ∧ elemTypes (elemDefaultType (some "float")) = none ∧
    AttributeArrayNew 0 "vec3" 1 "static" [] false
      = (.error (.thrown attrTypeErrMsg), []) ∧
    ElementArrayNew [] (some "float") = (.error (.thrown elemTypeErrMsg), []) :=
  ⟨rfl, rfl,
    C10_constructor_failure_is_atomic.1 0 "vec3" 1 "static" [] false rfl,
    C10_constructor_failure_is_atomic.2 [] (some "float") rfl⟩



